import Mathlib

/-!
# Verification of the NPC cognitive-pipeline core

A shallow embedding, in Lean 4, of the data model and operations of the NPC
mind repository: the `Action` model with its context-aware validation
(translated from the implementation code in the entity-hallucination design
document, `actions/models.py`), and the pipeline-engine operations (LLM-node
retry loop with token accounting, node timing, memory-retrieval
deduplication, retrieval scoring, memory consolidation).  The Python modules
implementing the latter group (`nodes/base.py`, `memory_retrieval/node.py`,
`vector_db_memory.py`, the MCP `consolidate_memories` tool) are not present
in the repository snapshot, so those operations are modelled from the
specification and the repository documentation; each such definition carries
a doc comment saying so.
-/

set_option autoImplicit false

namespace NPC

/-! ## Action model (from `actions/models.py` as given in the design doc) -/

/-- The action types named by the validation code and the Godot action
catalogue (`WaitAction`, `WanderAction`, `MoveToAction`, `InteractWithAction`,
`ContinueAction`, ...). -/
inductive ActionType where
  | move_to
  | move_direction
  | wander
  | interact_with
  | wait
  | continue_action
  deriving DecidableEq, Repr

/-- `EntityData`: a visible entity with its identifier and its interaction
map (interaction name, interaction description). -/
structure EntityData where
  entity_id : String
  interactions : List (String × String)
  deriving DecidableEq, Repr

/-- `VisionObservation`: the list of currently visible entities. -/
structure VisionObservation where
  visible_entities : List EntityData
  deriving DecidableEq, Repr

/-- `StatusObservation`: agent position and movement-lock flag. -/
structure StatusObservation where
  position : Int × Int
  movement_locked : Bool
  deriving DecidableEq, Repr

/-- `Observation`: structured observation supplied by the simulation; the
`status` and `vision` sub-observations are optional (`None` in Python). -/
structure Observation where
  entity_id : String
  current_simulation_time : Nat
  status : Option StatusObservation
  vision : Option VisionObservation
  deriving DecidableEq, Repr

/-- `Action`: the chosen action with its string-keyed parameter dict
(modelled as an association list with string values). -/
structure Action where
  action : ActionType
  parameters : List (String × String)
  deriving DecidableEq, Repr

/-- The exception classes of `actions/exceptions.py` plus Pydantic's
`ValueError`, as raised by the validation code. -/
inductive ActionError where
  | ValueError (msg : String)
  | MovementLockedError
  | MissingRequiredParameterError (param : String) (action : ActionType)
  | InvalidEntityError (entity_id : String) (visible : List String)
  | InvalidInteractionError (name : String) (entity_id : String)
      (available : List String)
  deriving DecidableEq, Repr

/-- The Pydantic validation context: a dict that may or may not carry an
`'observation'` entry.  `none` at the outer level stands for an absent (or
empty, hence falsy) context dict. -/
structure ValidationContext where
  observation : Option Observation
  deriving DecidableEq, Repr

/-- `self.parameters.get(key)`: first value stored under `key`, if any. -/
def getParam (params : List (String × String)) (key : String) : Option String :=
  (params.find? (fun p => p.1 == key)).map (fun p => p.2)

/-- Python truthiness test `if not value:` on an optional string: `None` and
the empty string are falsy. -/
def falsyParam : Option String → Bool
  | none => true
  | some s => s.isEmpty

/-- The identifiers of the observation's visible entities
(`[e.entity_id for e in observation.vision.visible_entities]`; the empty
list when the observation carries no vision data). -/
def visible_entity_ids (obs : Observation) : List String :=
  match obs.vision with
  | some v => v.visible_entities.map (fun e => e.entity_id)
  | none => []

/-- `Action._validate_movement_lock`: movement-based actions are rejected
while `observation.status.movement_locked` is set. -/
def Action.validate_movement_lock (a : Action) (obs : Observation) :
    Except ActionError Unit :=
  match obs.status with
  | some st =>
      if st.movement_locked &&
          (a.action == ActionType.move_to || a.action == ActionType.move_direction
            || a.action == ActionType.wander) then
        Except.error ActionError.MovementLockedError
      else
        Except.ok ()
  | none => Except.ok ()

/-- `Action._validate_interact_with`: requires `entity_id` and
`interaction_name` parameters; when the observation has vision data, the
entity must be visible and must offer the named interaction. -/
def Action.validate_interact_with (a : Action) (obs : Observation) :
    Except ActionError Unit :=
  let entity_id := getParam a.parameters "entity_id"
  let interaction_name := getParam a.parameters "interaction_name"
  if falsyParam entity_id then
    Except.error (ActionError.MissingRequiredParameterError "entity_id" a.action)
  else if falsyParam interaction_name then
    Except.error (ActionError.MissingRequiredParameterError "interaction_name" a.action)
  else
    let eid := entity_id.getD ""
    let iname := interaction_name.getD ""
    match obs.vision with
    | some vision =>
        let visible_ids := vision.visible_entities.map (fun e => e.entity_id)
        if eid ∉ visible_ids then
          Except.error (ActionError.InvalidEntityError eid visible_ids)
        else
          match vision.visible_entities.find? (fun e => e.entity_id == eid) with
          | some entity =>
              if iname ∉ entity.interactions.map (fun p => p.1) then
                Except.error (ActionError.InvalidInteractionError iname eid
                  (entity.interactions.map (fun p => p.1)))
              else
                Except.ok ()
          | none => Except.ok ()
    | none => Except.ok ()

/-- `Action._validate_move_to`: requires a `destination` key. -/
def Action.validate_move_to (a : Action) : Except ActionError Unit :=
  if (a.parameters.find? (fun p => p.1 == "destination")).isNone then
    Except.error (ActionError.MissingRequiredParameterError "destination" a.action)
  else
    Except.ok ()

/-- `Action.validate_executable` (the `@model_validator(mode='after')`):
fails loudly when the validation context or its `'observation'` entry is
missing, then runs the movement-lock check and the per-action-type check,
returning the action itself on success. -/
def Action.validate_executable (a : Action) (ctx : Option ValidationContext) :
    Except ActionError Action :=
  match ctx with
  | none =>
      Except.error (ActionError.ValueError
        "Action validation requires context with observation")
  | some c =>
      match c.observation with
      | none =>
          Except.error (ActionError.ValueError
            "Action validation requires observation in context")
      | some obs =>
          match a.validate_movement_lock obs with
          | Except.error e => Except.error e
          | Except.ok _ =>
              if a.action == ActionType.interact_with then
                match a.validate_interact_with obs with
                | Except.error e => Except.error e
                | Except.ok _ => Except.ok a
              else if a.action == ActionType.move_to then
                match a.validate_move_to with
                | Except.error e => Except.error e
                | Except.ok _ => Except.ok a
              else
                Except.ok a

/-! ## Pipeline state and instrumentation maps

The `nodes/base.py` module (the `Node` / `LLMNode` base classes) is not part
of the repository snapshot — only its documentation
(`docs/cognitive_architecture/nodes/base.md`) is.  The following definitions
model it from the specification. -/

/-- Look up a key in a string-keyed map (a Python dict modelled as an
association list). -/
def lookupEntry (m : List (String × Nat)) (k : String) : Option Nat :=
  (m.find? (fun p => p.1 == k)).map (fun p => p.2)

/-- Look up a key with a default value (`dict.get(k, d)`). -/
def getEntryD (m : List (String × Nat)) (k : String) (d : Nat) : Nat :=
  (lookupEntry m k).getD d

/-- Set a key in a string-keyed map (`m[k] = v`), overwriting the existing
entry when present. -/
def setEntry (m : List (String × Nat)) (k : String) (v : Nat) :
    List (String × Nat) :=
  match m with
  | [] => [(k, v)]
  | p :: rest => if p.1 == k then (k, v) :: rest else p :: setEntry rest k v

/-- Modelled from the spec: the Pipeline State record threaded through every
stage (`state.py` is absent from the snapshot); only the fields the proven
claims touch are carried — the per-stage token map `tokens_used`, the
per-stage timing map `time_ms`, and the `chosen_action` slot filled by
Action-Selection. -/
structure PipelineState where
  tokens_used : List (String × Nat)
  time_ms : List (String × Nat)
  chosen_action : Option Action
  deriving DecidableEq, Repr

/-- Modelled from the spec: `LLMNode.track_tokens` — accumulate token usage
into `state.tokens_used[step_name]` (`nodes/base.py` is absent from the
snapshot). -/
def track_tokens (step : String) (state : PipelineState) (tokens : Nat) :
    PipelineState :=
  { state with
    tokens_used :=
      setEntry state.tokens_used step (getEntryD state.tokens_used step 0 + tokens) }

/-! ## LLM Stage retry loop (modelled from the spec) -/

/-- A conversation message role. -/
inductive Role where
  | human
  | ai
  deriving DecidableEq, Repr

/-- A conversation message: an accumulating (role, content) turn. -/
structure Message where
  role : Role
  content : String
  deriving DecidableEq, Repr

/-- A model invocation's reported result: response text plus the token usage
it reports (`response.usage_metadata['total_tokens']`), reported even for
responses the caller considers invalid. -/
structure LLMResponse where
  content : String
  total_tokens : Nat
  deriving DecidableEq, Repr

/-- Modelled from the spec: the synthesized human-readable error message
appended to the conversation on a validation failure (`nodes/base.py` is
absent from the snapshot). -/
def errorFeedback (e : String) : String :=
  "Your previous response failed validation: " ++ e ++ ". Please correct it."

/-- The outcome of one `call_llm` run: the terminal result, the updated
pipeline state, every model invocation made (in order, failed ones
included), and the final running conversation. -/
structure LLMCallResult (α : Type) where
  result : Except String α
  state : PipelineState
  attempts : List LLMResponse
  conversation : List Message
  deriving Repr

/-- Modelled from the spec: the retry loop of `LLMNode.call_llm`
(`nodes/base.py` is absent from the snapshot).  `fuel` is the number of
retries still allowed.  Each attempt invokes the model on the running
conversation, accumulates the reported token usage into the state, and
validates the response; on validation failure with retries left, the prior
(invalid) model response and a synthesized error message are appended to the
conversation and the model is re-invoked; with no retries left the terminal
validation error is returned. -/
def runAttempts {α : Type} (step : String) (model : List Message → LLMResponse)
    (validate : String → Except String α) :
    Nat → List Message → PipelineState → LLMCallResult α
  | 0, conv, state =>
      let resp := model conv
      let state' := track_tokens step state resp.total_tokens
      match validate resp.content with
      | Except.ok out =>
          { result := Except.ok out, state := state', attempts := [resp],
            conversation := conv }
      | Except.error e =>
          { result := Except.error e, state := state', attempts := [resp],
            conversation := conv }
  | fuel + 1, conv, state =>
      let resp := model conv
      let state' := track_tokens step state resp.total_tokens
      match validate resp.content with
      | Except.ok out =>
          { result := Except.ok out, state := state', attempts := [resp],
            conversation := conv }
      | Except.error e =>
          let conv' := conv ++ [⟨Role.ai, resp.content⟩,
                                ⟨Role.human, errorFeedback e⟩]
          let r := runAttempts step model validate fuel conv' state'
          { r with attempts := resp :: r.attempts }

/-- Modelled from the spec: `LLMNode.call_llm` — render the prompt as the
initial human turn and run up to `max_retries + 1` attempts
(`nodes/base.py` is absent from the snapshot). -/
def call_llm {α : Type} (step : String) (model : List Message → LLMResponse)
    (validate : String → Except String α) (max_retries : Nat) (prompt : String)
    (state : PipelineState) : LLMCallResult α :=
  runAttempts step model validate max_retries [⟨Role.human, prompt⟩] state

/-! ## Node timing wrapper (modelled from the spec) -/

/-- Modelled from the spec: record `elapsed_ms` under the stage's name in
the state's timing map (`state.time_ms[step_name]`; `nodes/base.py` is
absent from the snapshot). -/
def record_timing (step : String) (elapsed : Nat) (s : PipelineState) :
    PipelineState :=
  { s with time_ms := setEntry s.time_ms step elapsed }

/-- Modelled from the spec: the `Node` base-class wrapper around a stage's
`process`.  It returns the stage outcome together with the observable
pipeline state; the elapsed time (supplied by the clock as `elapsed`) is
recorded unconditionally — on success and also when `process` itself fails,
in which case the error propagates while the partial state still carries the
timing entry (`nodes/base.py` is absent from the snapshot). -/
def node_run (step : String) (elapsed : Nat)
    (process : PipelineState → Except String PipelineState)
    (state : PipelineState) :
    Except String PipelineState × PipelineState :=
  match process state with
  | Except.ok s' => (Except.ok (record_timing step elapsed s'),
                     record_timing step elapsed s')
  | Except.error e => (Except.error e, record_timing step elapsed state)

/-! ## Action-Selection stage (modelled from the spec) -/

/-- Render an `ActionError` into the human-readable message injected into
the retry conversation. -/
def actionErrorMessage : ActionError → String
  | ActionError.ValueError msg => msg
  | ActionError.MovementLockedError => "Movement is currently locked"
  | ActionError.MissingRequiredParameterError p _ => "Missing required parameter " ++ p
  | ActionError.InvalidEntityError eid _ => "Entity not visible: " ++ eid
  | ActionError.InvalidInteractionError n eid _ =>
      "Interaction " ++ n ++ " not offered by " ++ eid

/-- Modelled from the spec: the Action-Selection validator — parse the raw
model response into an `Action`, then run the context-aware
`validate_executable` against the current observation
(`action_selection/node.py` is absent from the snapshot). -/
def parseThenValidate (parser : String → Except String Action)
    (obs : Observation) (s : String) : Except String Action :=
  match parser s with
  | Except.error e => Except.error e
  | Except.ok a =>
      match a.validate_executable (some ⟨some obs⟩) with
      | Except.error err => Except.error (actionErrorMessage err)
      | Except.ok a' => Except.ok a'

/-- Modelled from the spec: the Action-Selection stage — run the LLM retry
loop with the context-aware validator; on success write the chosen action
into the state, on terminal failure return the error with the state's
`chosen_action` untouched (`action_selection/node.py` is absent from the
snapshot). -/
def action_selection_node (parser : String → Except String Action)
    (model : List Message → LLMResponse) (max_retries : Nat) (prompt : String)
    (obs : Observation) (state : PipelineState) :
    Except String PipelineState × PipelineState :=
  let r := call_llm "action_selection" model (parseThenValidate parser obs)
    max_retries prompt state
  match r.result with
  | Except.ok a =>
      let s' := { r.state with chosen_action := some a }
      (Except.ok s', s')
  | Except.error e => (Except.error e, r.state)

/-! ## Memory model, retrieval scoring, deduplication, consolidation -/

/-- `Memory`: a persisted long-term memory record (identifier, content,
creation timestamp in simulation time, importance score, embedding). -/
structure Memory where
  id : String
  content : String
  timestamp : Nat
  importance : Nat
  embedding : List ℚ
  deriving DecidableEq, Repr

/-- Modelled from the spec: ID-based deduplication of merged retrieval
results, keeping the first (highest-ranked) occurrence of each identifier
(`memory_retrieval/node.py` is absent from the snapshot). -/
def dedup_by_id (seen : List String) : List Memory → List Memory
  | [] => []
  | m :: rest =>
      if m.id ∈ seen then dedup_by_id seen rest
      else m :: dedup_by_id (m.id :: seen) rest

/-- Modelled from the spec: the Memory-Retrieval merge step — concatenate
the per-query top-k result lists in rank order, then deduplicate by memory
identifier (`memory_retrieval/node.py` is absent from the snapshot). -/
def merge_and_dedup (results : List (List Memory)) : List Memory :=
  dedup_by_id [] results.flatten

/-- Modelled from the spec: `recency_weight` — exponential decay in elapsed
simulation time (`vector_db_memory.py` is absent from the snapshot). -/
def recency_weight (decay : ℚ) (elapsed : Nat) : ℚ :=
  decay ^ elapsed

/-- Modelled from the spec: `importance_weight` — the 1–10 importance score
normalized to [0, 1] (`vector_db_memory.py` is absent from the snapshot). -/
def importance_weight (m : Memory) : ℚ :=
  (m.importance : ℚ) / 10

/-- Modelled from the spec: the combined retrieval score
`relevance * importance_weight * recency_weight(now - timestamp)`
(`vector_db_memory.py` is absent from the snapshot).  `relevance` is the
similarity of the query embedding to the memory's embedding, so memories
with identical embeddings share it. -/
def retrieval_score (relevance : ℚ) (decay : ℚ) (now : Nat) (m : Memory) : ℚ :=
  relevance * importance_weight m * recency_weight decay (now - m.timestamp)

/-- A buffered new-memory candidate formed by Cognitive-Update: content and
importance, not yet embedded or persisted. -/
structure MemoryCandidate where
  content : String
  importance : Nat
  deriving DecidableEq, Repr

/-- The per-agent mind state visible to consolidation: the daily buffer of
unconsolidated candidates and the long-term scored memory store. -/
structure MindState where
  daily_memories : List MemoryCandidate
  long_term : List Memory
  deriving DecidableEq, Repr

/-- Modelled from the spec: the embedding-and-persisting loop of
consolidation — compute an embedding for each buffered candidate in order,
assigning persisted identifiers and the consolidation timestamp; the first
embedding failure aborts the whole batch (the MCP `consolidate_memories`
tool implementation is absent from the snapshot). -/
def consolidate_loop (embed : String → Except String (List ℚ))
    (mkId : Nat → String) (now : Nat) (idx : Nat) :
    List MemoryCandidate → Except String (List Memory)
  | [] => Except.ok []
  | c :: rest =>
      match embed c.content with
      | Except.error e => Except.error e
      | Except.ok v =>
          match consolidate_loop embed mkId now (idx + 1) rest with
          | Except.error e => Except.error e
          | Except.ok mems =>
              Except.ok (⟨mkId idx, c.content, now, c.importance, v⟩ :: mems)

/-- Modelled from the spec: the MCP `consolidate_memories` tool — embed and
persist every buffered candidate into the long-term store and clear the
daily buffer only after successful storage; on a fatal error the buffer is
left in its pre-consolidation state (the tool implementation is absent from
the snapshot).  Returns the consolidated count on success. -/
def consolidate_memories (embed : String → Except String (List ℚ))
    (mkId : Nat → String) (now : Nat) (st : MindState) :
    Except String Nat × MindState :=
  match consolidate_loop embed mkId now 0 st.daily_memories with
  | Except.ok mems =>
      (Except.ok mems.length,
       { daily_memories := [], long_term := st.long_term ++ mems })
  | Except.error e => (Except.error e, st)

/-! ## Concrete test fixtures

Concrete inputs used by the closed instances below: a pipeline state at the
start of a cycle, a deterministic mock model, validators and parsers that
always fail, and small observations mirroring the scenario of the spec
(one visible entity `bread_01` offering interaction `eat`). -/

/-- A fresh pipeline state: empty instrumentation maps, no chosen action. -/
def initState : PipelineState :=
  { tokens_used := [], time_ms := [], chosen_action := none }

/-- A deterministic mock model: the response depends on the conversation
length, and every invocation reports 7 tokens. -/
def mockModel : List Message → LLMResponse :=
  fun conv => { content := "response " ++ toString conv.length, total_tokens := 7 }

/-- A validator that rejects every response. -/
def alwaysInvalid : String → Except String String :=
  fun _ => Except.error "invalid output"

/-- A parser that fails on every completion. -/
def badParser : String → Except String Action :=
  fun _ => Except.error "unparseable completion"

/-- The entity of the spec scenario: `bread_01` offering `eat`. -/
def breadEntity : EntityData :=
  { entity_id := "bread_01", interactions := [("eat", "Eat the bread")] }

/-- An observation with one visible entity (`bread_01`) and unlocked
movement. -/
def breadObs : Observation :=
  { entity_id := "npc_001", current_simulation_time := 100,
    status := some { position := (3, 4), movement_locked := false },
    vision := some { visible_entities := [breadEntity] } }

/-- An observation carrying no vision data at all. -/
def no_vision_obs : Observation :=
  { entity_id := "npc_001", current_simulation_time := 100,
    status := none, vision := none }

/-- An observation whose status reports locked movement. -/
def lockedObs : Observation :=
  { entity_id := "npc_001", current_simulation_time := 100,
    status := some { position := (3, 4), movement_locked := true },
    vision := none }

/-- An `interact_with` action naming an entity that exists nowhere. -/
def ghostAction : Action :=
  { action := ActionType.interact_with,
    parameters := [("entity_id", "ghost"), ("interaction_name", "eat")] }

/-- An `interact_with` action naming a visible entity but a wrong
interaction. -/
def wrongInteractionAction : Action :=
  { action := ActionType.interact_with,
    parameters := [("entity_id", "bread_01"), ("interaction_name", "rest")] }

/-- A movement action with a destination parameter. -/
def moveAction : Action :=
  { action := ActionType.move_to, parameters := [("destination", "(1, 2)")] }

/-- Demo memories for the deduplication scenario: two per-query result
lists that share the identifier `"b"` at different positions. -/
def memA : Memory :=
  { id := "a", content := "saw bread", timestamp := 10, importance := 5,
    embedding := [1, 0] }

/-- First-ranked occurrence of identifier `"b"`. -/
def memB1 : Memory :=
  { id := "b", content := "ate bread", timestamp := 20, importance := 7,
    embedding := [0, 1] }

/-- Lower-ranked duplicate of identifier `"b"`. -/
def memB2 : Memory :=
  { id := "b", content := "ate bread", timestamp := 20, importance := 7,
    embedding := [0, 1] }

/-- A third memory with identifier `"c"`. -/
def memC : Memory :=
  { id := "c", content := "met Tom", timestamp := 30, importance := 4,
    embedding := [1, 1] }

/-- Two merged per-query result lists sharing identifier `"b"`. -/
def demoResults : List (List Memory) := [[memA, memB1], [memB2, memC]]

/-- Two memories identical except for their creation timestamp. -/
def olderMem : Memory :=
  { id := "m1", content := "heard a song", timestamp := 10, importance := 6,
    embedding := [1, 0] }

/-- The newer of the two otherwise-identical memories. -/
def newerMem : Memory :=
  { id := "m2", content := "heard a song", timestamp := 40, importance := 6,
    embedding := [1, 0] }

/-- Three buffered candidates for the consolidation scenario. -/
def threeCandidates : List MemoryCandidate :=
  [{ content := "c1", importance := 3 }, { content := "c2", importance := 5 },
   { content := "c3", importance := 8 }]

/-- A mind state buffering three candidates over an empty store. -/
def threeCandidateState : MindState :=
  { daily_memories := threeCandidates, long_term := [] }

/-- An embedding service that throws on the 2nd of the 3 candidates. -/
def failOnSecond : String → Except String (List ℚ) :=
  fun s => if s == "c2" then Except.error "embedding service failure"
           else Except.ok [1, 2]

/-- An embedding service that always succeeds. -/
def okEmbed : String → Except String (List ℚ) :=
  fun _ => Except.ok [1, 2]

/-- Identifier assignment used by the consolidation fixtures. -/
def demoMkId : Nat → String := fun n => "mem_" ++ toString n

/-! ## Helper lemmas on the instrumentation maps -/

theorem lookupEntry_setEntry_self (m : List (String × Nat)) (k : String) (v : Nat) :
    lookupEntry (setEntry m k v) k = some v := by
  induction m with
  | nil => simp [setEntry, lookupEntry]
  | cons p rest ih =>
      by_cases h : p.1 == k
      · simp [setEntry, h, lookupEntry]
      · simp only [setEntry, h, if_false, Bool.false_eq_true]
        simpa [lookupEntry, List.find?, h] using ih

theorem getEntryD_track_tokens (step : String) (state : PipelineState) (n : Nat) :
    getEntryD (track_tokens step state n).tokens_used step 0
      = getEntryD state.tokens_used step 0 + n := by
  simp [track_tokens, getEntryD, lookupEntry_setEntry_self]

theorem track_tokens_chosen_action (step : String) (state : PipelineState) (n : Nat) :
    (track_tokens step state n).chosen_action = state.chosen_action := rfl

/-! ## Helper lemmas on the LLM retry loop -/

theorem runAttempts_zero {α : Type} (step : String)
    (model : List Message → LLMResponse) (validate : String → Except String α)
    (conv : List Message) (state : PipelineState) :
    runAttempts step model validate 0 conv state =
      match validate (model conv).content with
      | Except.ok out =>
          { result := Except.ok out,
            state := track_tokens step state (model conv).total_tokens,
            attempts := [model conv], conversation := conv }
      | Except.error e =>
          { result := Except.error e,
            state := track_tokens step state (model conv).total_tokens,
            attempts := [model conv], conversation := conv } := rfl

theorem runAttempts_succ {α : Type} (step : String)
    (model : List Message → LLMResponse) (validate : String → Except String α)
    (fuel : Nat) (conv : List Message) (state : PipelineState) :
    runAttempts step model validate (fuel + 1) conv state =
      match validate (model conv).content with
      | Except.ok out =>
          { result := Except.ok out,
            state := track_tokens step state (model conv).total_tokens,
            attempts := [model conv], conversation := conv }
      | Except.error e =>
          let r := runAttempts step model validate fuel
            (conv ++ [⟨Role.ai, (model conv).content⟩,
                      ⟨Role.human, errorFeedback e⟩])
            (track_tokens step state (model conv).total_tokens)
          { r with attempts := model conv :: r.attempts } := rfl

theorem runAttempts_tokens {α : Type} (step : String)
    (model : List Message → LLMResponse) (validate : String → Except String α) :
    ∀ (fuel : Nat) (conv : List Message) (state : PipelineState),
      getEntryD (runAttempts step model validate fuel conv state).state.tokens_used step 0
        = getEntryD state.tokens_used step 0
          + (((runAttempts step model validate fuel conv state).attempts).map
              (fun r => r.total_tokens)).sum := by
  intro fuel
  induction fuel with
  | zero =>
      intro conv state
      rw [runAttempts_zero]
      cases h : validate (model conv).content with
      | ok out => simp [getEntryD_track_tokens]
      | error e => simp [getEntryD_track_tokens]
  | succ fuel ih =>
      intro conv state
      rw [runAttempts_succ]
      cases h : validate (model conv).content with
      | ok out => simp [getEntryD_track_tokens]
      | error e =>
          simp only [List.map_cons, List.sum_cons]
          rw [ih, getEntryD_track_tokens]
          ring

theorem runAttempts_chosen_action {α : Type} (step : String)
    (model : List Message → LLMResponse) (validate : String → Except String α) :
    ∀ (fuel : Nat) (conv : List Message) (state : PipelineState),
      (runAttempts step model validate fuel conv state).state.chosen_action
        = state.chosen_action := by
  intro fuel
  induction fuel with
  | zero =>
      intro conv state
      rw [runAttempts_zero]
      cases h : validate (model conv).content with
      | ok out => simp [track_tokens_chosen_action]
      | error e => simp [track_tokens_chosen_action]
  | succ fuel ih =>
      intro conv state
      rw [runAttempts_succ]
      cases h : validate (model conv).content with
      | ok out => simp [track_tokens_chosen_action]
      | error e =>
          simp only []
          rw [ih, track_tokens_chosen_action]

theorem runAttempts_always_invalid {α : Type} (step : String)
    (model : List Message → LLMResponse) (validate : String → Except String α)
    (h : ∀ conv, ∃ e, validate (model conv).content = Except.error e) :
    ∀ (fuel : Nat) (conv : List Message) (state : PipelineState),
      ∃ e, (runAttempts step model validate fuel conv state).result
        = Except.error e := by
  intro fuel
  induction fuel with
  | zero =>
      intro conv state
      obtain ⟨e, he⟩ := h conv
      refine ⟨e, ?_⟩
      rw [runAttempts_zero, he]
  | succ fuel ih =>
      intro conv state
      obtain ⟨e, he⟩ := h conv
      obtain ⟨e', he'⟩ := ih (conv ++ [⟨Role.ai, (model conv).content⟩,
          ⟨Role.human, errorFeedback e⟩])
        (track_tokens step state (model conv).total_tokens)
      refine ⟨e', ?_⟩
      rw [runAttempts_succ, he]
      exact he'

/-- C8: Every execution of a Stage records an elapsed-time entry under the
stage's name in the pipeline state's timing map regardless of outcome — for
an arbitrary `process` (so on success and on validation failure alike), for
a `process` that throws an unrecoverable error, and when the same stage runs
twice the entry is recorded both times. -/
theorem node_run_records (step : String) (elapsed : Nat)
    (process : PipelineState → Except String PipelineState)
    (state : PipelineState) :
    lookupEntry (node_run step elapsed process state).2.time_ms step
      = some elapsed := by
  cases h : process state <;>
    simp [node_run, h, record_timing, lookupEntry_setEntry_self]

theorem node_timing_unconditional (step : String) (e1 e2 : Nat)
    (process : PipelineState → Except String PipelineState)
    (state : PipelineState) (err : String) :
    lookupEntry (node_run step e1 process state).2.time_ms step = some e1 ∧
    lookupEntry ((node_run step e2 process
        (node_run step e1 process state).2).2).time_ms step = some e2 ∧
    lookupEntry (node_run step e1 (fun _ => Except.error err) state).2.time_ms step
      = some e1 := by
  exact ⟨node_run_records step e1 process state,
    node_run_records step e2 process (node_run step e1 process state).2,
    node_run_records step e1 (fun _ => Except.error err) state⟩

/-- C4: For every run of an LLM Stage, the token count recorded in the
pipeline state's token map under the stage's name equals the initial count
plus the sum of the reported token usage of every model invocation made
during that run — the attempt log contains one entry per model call, failed
attempts included, since the loop appends each response it receives. -/
theorem llm_stage_token_accounting {α : Type} (step : String)
    (model : List Message → LLMResponse) (validate : String → Except String α)
    (max_retries : Nat) (prompt : String) (state : PipelineState) :
    getEntryD (call_llm step model validate max_retries prompt state).state.tokens_used step 0
      = getEntryD state.tokens_used step 0
        + (((call_llm step model validate max_retries prompt state).attempts).map
            (fun r => r.total_tokens)).sum := by
  simpa [call_llm] using
    runAttempts_tokens step model validate max_retries
      [⟨Role.human, prompt⟩] state

/-! ## Action validation claims -/

/-- C9: Validating an Action of type MOVE_TO, MOVE_DIRECTION, or WANDER
against an observation whose status reports `movement_locked = true` raises
`MovementLockedError`, so no movement-based action passes validation while
movement is locked. -/
theorem movement_locked_blocks (a : Action) (obs : Observation)
    (st : StatusObservation) (hst : obs.status = some st)
    (hlock : st.movement_locked = true)
    (hmove : a.action = ActionType.move_to ∨ a.action = ActionType.move_direction
      ∨ a.action = ActionType.wander) :
    a.validate_executable (some ⟨some obs⟩)
      = Except.error ActionError.MovementLockedError := by
  have hml : a.validate_movement_lock obs
      = Except.error ActionError.MovementLockedError := by
    rw [Action.validate_movement_lock, hst]
    rcases hmove with h | h | h <;> simp [h, hlock]
  simp [Action.validate_executable, hml]

/-- C9 witness: a concrete MOVE_TO action against a movement-locked
observation is rejected with `MovementLockedError`. -/
theorem movement_locked_blocks_witness :
    moveAction.validate_executable (some ⟨some lockedObs⟩)
      = Except.error ActionError.MovementLockedError :=
  movement_locked_blocks moveAction lockedObs
    { position := (3, 4), movement_locked := true } rfl rfl (Or.inl rfl)

/-- C10: Validating any Action without a validation context, or with a
context lacking an observation entry, raises a ValueError; consequently an
Action is never successfully validated without an observation to check
against. -/
theorem validation_requires_observation (a : Action) :
    a.validate_executable none
      = Except.error (ActionError.ValueError
          "Action validation requires context with observation") ∧
    (∀ c : ValidationContext, c.observation = none →
      a.validate_executable (some c)
        = Except.error (ActionError.ValueError
            "Action validation requires observation in context")) ∧
    (∀ ctx : Option ValidationContext, ∀ a' : Action,
      a.validate_executable ctx = Except.ok a' →
      ∃ obs : Observation, ctx = some ⟨some obs⟩) := by
  refine ⟨rfl, ?_, ?_⟩
  · intro c hc
    cases c with
    | mk o => cases hc; rfl
  · intro ctx a' hok
    match ctx with
    | none => exact absurd hok (fun hok => Except.noConfusion hok)
    | some ⟨none⟩ => exact absurd hok (fun hok => Except.noConfusion hok)
    | some ⟨some obs⟩ => exact ⟨obs, rfl⟩

/-- C10 witness: the ghost action validated with a missing context and with
a context lacking an observation yields ValueErrors, instantiated from the
general theorem. -/
theorem validation_requires_observation_witness :
    ghostAction.validate_executable none
      = Except.error (ActionError.ValueError
          "Action validation requires context with observation") ∧
    ghostAction.validate_executable (some ⟨none⟩)
      = Except.error (ActionError.ValueError
          "Action validation requires observation in context") := by
  obtain ⟨h1, h2, _⟩ := validation_requires_observation ghostAction
  exact ⟨h1, h2 ⟨none⟩ rfl⟩

/-- C3 (amended): For every INTERACT_WITH action validated against an
observation that carries vision data, if the `entity_id` parameter does not
appear among the identifiers of the visible entities, validation fails with
`InvalidEntityError`; and if the entity is visible but does not offer the
named interaction, validation fails with `InvalidInteractionError` — in
both cases the action is rejected rather than accepted, which is what feeds
the retry path. -/
theorem interact_with_hallucination_rejected (a : Action) (obs : Observation)
    (v : VisionObservation) (hv : obs.vision = some v)
    (ha : a.action = ActionType.interact_with)
    (eid iname : String)
    (heid : getParam a.parameters "entity_id" = some eid)
    (heid2 : eid.isEmpty = false)
    (hiname : getParam a.parameters "interaction_name" = some iname)
    (hiname2 : iname.isEmpty = false) :
    (eid ∉ visible_entity_ids obs →
      a.validate_executable (some ⟨some obs⟩)
        = Except.error (ActionError.InvalidEntityError eid
            (visible_entity_ids obs))) ∧
    (∀ ent : EntityData,
      v.visible_entities.find? (fun e => e.entity_id == eid) = some ent →
      iname ∉ ent.interactions.map (fun p => p.1) →
      a.validate_executable (some ⟨some obs⟩)
        = Except.error (ActionError.InvalidInteractionError iname eid
            (ent.interactions.map (fun p => p.1)))) := by
  have hml : a.validate_movement_lock obs = Except.ok () := by
    rw [Action.validate_movement_lock]
    cases hs : obs.status with
    | none => rfl
    | some st => simp [ha]
  have hvis : visible_entity_ids obs = v.visible_entities.map (fun e => e.entity_id) := by
    rw [visible_entity_ids, hv]
  constructor
  · intro hnot
    have hiw : a.validate_interact_with obs
        = Except.error (ActionError.InvalidEntityError eid
            (v.visible_entities.map (fun e => e.entity_id))) := by
      rw [Action.validate_interact_with]
      rw [hvis] at hnot
      simp [heid, hiname, falsyParam, heid2, hiname2, hv, hnot]
    rw [hvis]
    simp [Action.validate_executable, hml, ha, hiw]
  · intro ent hfind hnotin
    have hmem : ent ∈ v.visible_entities := List.mem_of_find?_eq_some hfind
    have hpred := List.find?_some hfind
    have heq : ent.entity_id = eid := by simpa using hpred
    have hin : eid ∈ v.visible_entities.map (fun e => e.entity_id) :=
      List.mem_map.mpr ⟨ent, hmem, heq⟩
    have hiw : a.validate_interact_with obs
        = Except.error (ActionError.InvalidInteractionError iname eid
            (ent.interactions.map (fun p => p.1))) := by
      rw [Action.validate_interact_with]
      simp [heid, hiname, falsyParam, heid2, hiname2, hv, hin, hfind, hnotin]
    simp [Action.validate_executable, hml, ha, hiw]

/-- C3 counterexample to the unamended claim: an INTERACT_WITH action naming
an entity that appears among no visible entities (the observation carries no
vision data, so its visible-entity list is empty) nevertheless passes
validation, because the entity check is only executed when vision data is
present. -/
theorem interact_with_no_vision_counterexample :
    ghostAction.action = ActionType.interact_with ∧
    getParam ghostAction.parameters "entity_id" = some "ghost" ∧
    visible_entity_ids no_vision_obs = [] ∧
    "ghost" ∉ visible_entity_ids no_vision_obs ∧
    ghostAction.validate_executable (some ⟨some no_vision_obs⟩)
      = Except.ok ghostAction := by
  refine ⟨rfl, rfl, rfl, ?_, rfl⟩
  intro hmem
  simp [visible_entity_ids, no_vision_obs] at hmem

/-- C3 witness: against the bread observation (which has vision data), an
action naming an invisible entity is rejected with `InvalidEntityError`, and
an action naming the visible entity with an interaction it does not offer is
rejected with `InvalidInteractionError`. -/
theorem interact_with_hallucination_rejected_witness :
    ghostAction.validate_executable (some ⟨some breadObs⟩)
      = Except.error (ActionError.InvalidEntityError "ghost" ["bread_01"]) ∧
    wrongInteractionAction.validate_executable (some ⟨some breadObs⟩)
      = Except.error (ActionError.InvalidInteractionError "rest" "bread_01"
          ["eat"]) := by
  constructor
  · have h := (interact_with_hallucination_rejected ghostAction breadObs
      ⟨[breadEntity]⟩ rfl rfl "ghost" "eat" rfl rfl rfl rfl).1
      (by intro hmem; simp [visible_entity_ids, breadObs, breadEntity] at hmem)
    simpa [visible_entity_ids, breadObs, breadEntity] using h
  · have h := (interact_with_hallucination_rejected wrongInteractionAction
      breadObs ⟨[breadEntity]⟩ rfl rfl "bread_01" "rest" rfl rfl rfl rfl).2
      breadEntity (by simp [breadEntity]) (by simp [breadEntity])
    simpa [breadEntity] using h

/-! ## LLM Stage retry claims -/

/-- C1: An LLM Stage configured with retry budget R = 2 and a model whose
every response is invalid (the validator rejects every string, reporting
`errOf s` for response `s`) makes exactly 3 model invocations; each retry
appends the prior invalid model response (as an AI turn) and the synthesized
human-readable error message (as a human turn) to the running conversation;
and the run ends in a terminal validation error, never an ok output. -/
theorem llm_stage_retry_exhaustion {α : Type} (step : String)
    (model : List Message → LLMResponse) (validate : String → Except String α)
    (errOf : String → String)
    (h : ∀ s, validate s = Except.error (errOf s))
    (prompt : String) (state : PipelineState) :
    let c0 : List Message := [⟨Role.human, prompt⟩]
    let r1 := model c0
    let c1 := c0 ++ [⟨Role.ai, r1.content⟩,
                     ⟨Role.human, errorFeedback (errOf r1.content)⟩]
    let r2 := model c1
    let c2 := c1 ++ [⟨Role.ai, r2.content⟩,
                     ⟨Role.human, errorFeedback (errOf r2.content)⟩]
    let r3 := model c2
    (call_llm step model validate 2 prompt state).attempts = [r1, r2, r3] ∧
    (call_llm step model validate 2 prompt state).result
      = Except.error (errOf r3.content) ∧
    (call_llm step model validate 2 prompt state).conversation = c2 ∧
    ∀ out : α, (call_llm step model validate 2 prompt state).result
      ≠ Except.ok out := by
  intro c0 r1 c1 r2 c2 r3
  have hv : validate = fun s => Except.error (errOf s) := funext h
  subst hv
  refine ⟨rfl, rfl, rfl, ?_⟩
  intro out hout
  have h2 : (call_llm (α := α) step model (fun s => Except.error (errOf s)) 2
      prompt state).result = Except.error (errOf r3.content) := rfl
  rw [h2] at hout
  exact Except.noConfusion hout

/-- C1 witness: the mock model with an always-rejecting validator and R = 2
makes exactly 3 attempts and ends with the terminal validation error. -/
theorem llm_stage_retry_exhaustion_witness :
    (call_llm "action_selection" mockModel alwaysInvalid 2 "prompt"
        initState).attempts.length = 3 ∧
    (call_llm "action_selection" mockModel alwaysInvalid 2 "prompt"
        initState).result = Except.error "invalid output" := by
  obtain ⟨h1, h2, h3, h4⟩ := llm_stage_retry_exhaustion "action_selection"
    mockModel alwaysInvalid (fun _ => "invalid output") (fun _ => rfl)
    "prompt" initState
  refine ⟨?_, h2⟩
  rw [h1]
  rfl

/-- C2: When every attempt of the Action-Selection stage fails its
parse-and-validate step, the caller receives a terminal error; the stage
never returns an ok state, and the observable pipeline state's chosen
action is exactly what it was before the stage ran — no default action is
substituted. -/
theorem action_selection_no_default (parser : String → Except String Action)
    (model : List Message → LLMResponse) (max_retries : Nat) (prompt : String)
    (obs : Observation) (state : PipelineState)
    (h : ∀ conv, ∃ e,
      parseThenValidate parser obs (model conv).content = Except.error e) :
    (∃ e, (action_selection_node parser model max_retries prompt obs state).1
        = Except.error e) ∧
    (action_selection_node parser model max_retries prompt obs state).2.chosen_action
        = state.chosen_action ∧
    ∀ s' : PipelineState,
      (action_selection_node parser model max_retries prompt obs state).1
        ≠ Except.ok s' := by
  obtain ⟨e, he⟩ := runAttempts_always_invalid "action_selection" model
    (parseThenValidate parser obs) h max_retries [⟨Role.human, prompt⟩] state
  have hca := runAttempts_chosen_action "action_selection" model
    (parseThenValidate parser obs) max_retries [⟨Role.human, prompt⟩] state
  refine ⟨⟨e, ?_⟩, ?_, ?_⟩
  · simp only [action_selection_node, call_llm]
    rw [he]
  · simp only [action_selection_node, call_llm]
    rw [he]
    exact hca
  · intro s' hok
    simp only [action_selection_node, call_llm] at hok
    rw [he] at hok
    exact Except.noConfusion hok

/-- C2 witness: with a parser that fails on every completion, the concrete
Action-Selection run ends in a terminal error and leaves the chosen action
unset. -/
theorem action_selection_no_default_witness :
    (∃ e, (action_selection_node badParser mockModel 2 "prompt" breadObs
        initState).1 = Except.error e) ∧
    (action_selection_node badParser mockModel 2 "prompt" breadObs
        initState).2.chosen_action = none := by
  obtain ⟨h1, h2, h3⟩ := action_selection_no_default badParser mockModel 2
    "prompt" breadObs initState
    (fun conv => ⟨"unparseable completion", rfl⟩)
  exact ⟨h1, h2⟩

/-! ## Memory-Retrieval deduplication claims -/

theorem dedup_by_id_sublist (l : List Memory) :
    ∀ seen : List String, (dedup_by_id seen l).Sublist l := by
  induction l with
  | nil => intro seen; simp [dedup_by_id]
  | cons m rest ih =>
      intro seen
      rw [dedup_by_id]
      by_cases hm : m.id ∈ seen
      · simp only [hm, if_true]
        exact (ih seen).cons m
      · simp only [hm, if_false]
        exact (ih (m.id :: seen)).cons₂ m

theorem dedup_by_id_not_in_seen (l : List Memory) :
    ∀ (seen : List String) (m' : Memory), m' ∈ dedup_by_id seen l →
      m'.id ∉ seen := by
  induction l with
  | nil => intro seen m' hm'; simp [dedup_by_id] at hm'
  | cons m rest ih =>
      intro seen m' hm'
      rw [dedup_by_id] at hm'
      by_cases hm : m.id ∈ seen
      · simp only [hm, if_true] at hm'
        exact ih seen m' hm'
      · simp only [hm, if_false] at hm'
        cases hm' with
        | head => exact hm
        | tail _ htail =>
            have := ih (m.id :: seen) m' htail
            exact fun hs => this (List.mem_cons_of_mem _ hs)

theorem dedup_by_id_nodup (l : List Memory) :
    ∀ seen : List String, ((dedup_by_id seen l).map (fun m => m.id)).Nodup := by
  induction l with
  | nil => intro seen; simp [dedup_by_id]
  | cons m rest ih =>
      intro seen
      rw [dedup_by_id]
      by_cases hm : m.id ∈ seen
      · simp only [hm, if_true]
        exact ih seen
      · simp only [hm, if_false, List.map_cons, List.nodup_cons]
        refine ⟨?_, ih (m.id :: seen)⟩
        intro hmem
        obtain ⟨m', hm', heq⟩ := List.mem_map.mp hmem
        have := dedup_by_id_not_in_seen rest (m.id :: seen) m' hm'
        exact this (heq ▸ List.mem_cons_self _ _)

theorem dedup_by_id_find (l : List Memory) :
    ∀ (seen : List String) (k : String), k ∉ seen →
      (dedup_by_id seen l).find? (fun m => m.id == k)
        = l.find? (fun m => m.id == k) := by
  induction l with
  | nil => intro seen k _; simp [dedup_by_id]
  | cons m rest ih =>
      intro seen k hk
      rw [dedup_by_id]
      by_cases hm : m.id ∈ seen
      · simp only [hm, if_true]
        have hne : (m.id == k) = false := by
          simp only [beq_eq_false_iff_ne, ne_eq]
          intro heq
          exact hk (heq ▸ hm)
        rw [List.find?_cons, hne]
        exact ih seen k hk
      · simp only [hm, if_false]
        by_cases heq : (m.id == k) = true
        · rw [List.find?_cons, List.find?_cons, heq]
        · have hne : (m.id == k) = false := Bool.eq_false_iff.mpr heq
          rw [List.find?_cons, List.find?_cons, hne]
          refine ih (m.id :: seen) k ?_
          intro hmem
          cases hmem with
          | head => exact heq (by simp)
          | tail _ htail => exact hk htail

/-- C5: After the per-query result lists are merged, the deduplicated
retrieved-memories list contains each Memory identifier at most once, is a
sublist of the merged list (so the relative ranking order of surviving
entries is preserved), and for every memory in the merged list the
representative of its identifier in the output is the first
(highest-ranked) occurrence of that identifier in the merged list. -/
theorem memory_retrieval_dedup (results : List (List Memory)) :
    ((merge_and_dedup results).map (fun m => m.id)).Nodup ∧
    (merge_and_dedup results).Sublist results.flatten ∧
    ∀ m ∈ results.flatten,
      (merge_and_dedup results).find? (fun x => x.id == m.id)
        = results.flatten.find? (fun x => x.id == m.id) := by
  refine ⟨dedup_by_id_nodup results.flatten [],
    dedup_by_id_sublist results.flatten [], ?_⟩
  intro m _
  exact dedup_by_id_find results.flatten [] m.id (by simp)

/-- C5 witness: two query result lists sharing identifier `"b"` at different
positions merge to a list containing `"b"` exactly once, at its
first-occurrence (highest-ranked) position. -/
theorem memory_retrieval_dedup_witness :
    ((merge_and_dedup demoResults).map (fun m => m.id)).Nodup ∧
    (merge_and_dedup demoResults).find? (fun x => x.id == memB2.id)
      = demoResults.flatten.find? (fun x => x.id == memB2.id) ∧
    merge_and_dedup demoResults = [memA, memB1, memC] ∧
    demoResults.flatten.find? (fun x => x.id == memB2.id) = some memB1 := by
  obtain ⟨h1, h2, h3⟩ := memory_retrieval_dedup demoResults
  refine ⟨h1, h3 memB2 (by decide), by decide, by decide⟩

/-! ## Retrieval scoring claims -/

/-- C6: For two memories identical in content, embedding (hence sharing the
same relevance to any query), and importance, and differing only in age, the
recency weight is monotonically non-increasing in elapsed time, so the older
memory's combined retrieval score is never strictly greater than the newer
memory's. -/
theorem retrieval_score_recency_monotone (relevance decay : ℚ) (now : Nat)
    (m_old m_new : Memory)
    (hrel : 0 ≤ relevance) (hd0 : 0 ≤ decay) (hd1 : decay ≤ 1)
    (hcontent : m_old.content = m_new.content)
    (hemb : m_old.embedding = m_new.embedding)
    (himp : m_old.importance = m_new.importance)
    (hage : m_old.timestamp ≤ m_new.timestamp) :
    recency_weight decay (now - m_old.timestamp)
      ≤ recency_weight decay (now - m_new.timestamp) ∧
    retrieval_score relevance decay now m_old
      ≤ retrieval_score relevance decay now m_new := by
  have helapsed : now - m_new.timestamp ≤ now - m_old.timestamp :=
    Nat.sub_le_sub_left hage now
  have hrw : recency_weight decay (now - m_old.timestamp)
      ≤ recency_weight decay (now - m_new.timestamp) := by
    unfold recency_weight
    exact pow_le_pow_of_le_one hd0 hd1 helapsed
  refine ⟨hrw, ?_⟩
  unfold retrieval_score
  rw [importance_weight, himp, ← importance_weight]
  have hnn : 0 ≤ relevance * importance_weight m_new := by
    apply mul_nonneg hrel
    unfold importance_weight
    positivity
  calc relevance * importance_weight m_new * recency_weight decay (now - m_old.timestamp)
      ≤ relevance * importance_weight m_new * recency_weight decay (now - m_new.timestamp) :=
        mul_le_mul_of_nonneg_left hrw hnn

/-- C6 witness: with decay 1/2 and relevance 3/4, the concrete older memory
scores no higher than the otherwise-identical newer one. -/
theorem retrieval_score_recency_monotone_witness :
    recency_weight (1 / 2) (50 - olderMem.timestamp)
      ≤ recency_weight (1 / 2) (50 - newerMem.timestamp) ∧
    retrieval_score (3 / 4) (1 / 2) 50 olderMem
      ≤ retrieval_score (3 / 4) (1 / 2) 50 newerMem :=
  retrieval_score_recency_monotone (3 / 4) (1 / 2) 50 olderMem newerMem
    (by norm_num) (by norm_num) (by norm_num) rfl rfl rfl (by norm_num [olderMem, newerMem])

/-! ## Consolidation atomicity claims -/

theorem consolidate_loop_ok (embed : String → Except String (List ℚ))
    (mkId : Nat → String) (now : Nat) :
    ∀ (cands : List MemoryCandidate) (idx : Nat),
      (∀ c ∈ cands, ∃ v, embed c.content = Except.ok v) →
      ∃ mems, consolidate_loop embed mkId now idx cands = Except.ok mems ∧
        mems.map (fun m => m.content) = cands.map (fun c => c.content) := by
  intro cands
  induction cands with
  | nil => intro idx _; exact ⟨[], rfl, rfl⟩
  | cons c rest ih =>
      intro idx hall
      obtain ⟨v, hv⟩ := hall c (List.mem_cons_self _ _)
      obtain ⟨mems, hmems, hcontents⟩ := ih (idx + 1)
        (fun c' hc' => hall c' (List.mem_cons_of_mem _ hc'))
      refine ⟨⟨mkId idx, c.content, now, c.importance, v⟩ :: mems, ?_, ?_⟩
      · rw [consolidate_loop, hv, hmems]
      · simp [hcontents]

theorem consolidate_loop_error (embed : String → Except String (List ℚ))
    (mkId : Nat → String) (now : Nat) :
    ∀ (cands : List MemoryCandidate) (idx : Nat),
      (∃ c ∈ cands, ∃ e, embed c.content = Except.error e) →
      ∃ e, consolidate_loop embed mkId now idx cands = Except.error e := by
  intro cands
  induction cands with
  | nil => intro idx h; obtain ⟨c, hc, _⟩ := h; simp at hc
  | cons c rest ih =>
      intro idx h
      cases hv : embed c.content with
      | error e => exact ⟨e, by rw [consolidate_loop, hv]⟩
      | ok v =>
          obtain ⟨c', hc', e', he'⟩ := h
          have hrest : c' ∈ rest := by
            cases hc' with
            | head => rw [hv] at he'; exact absurd he' (fun h => Except.noConfusion h)
            | tail _ htail => exact htail
          obtain ⟨e, he⟩ := ih (idx + 1) ⟨c', hrest, e', he'⟩
          refine ⟨e, ?_⟩
          rw [consolidate_loop, hv, he]

/-- C7: Consolidation is atomic with respect to the buffer: when the
embedding service succeeds on every buffered candidate, every candidate is
persisted into the long-term store (in buffer order, with its content
preserved) and the buffer is cleared; when the embedding service throws on
any buffered candidate, consolidation fails and the whole mind state —
buffer included — is exactly its pre-consolidation state, never partially
drained. -/
theorem consolidation_atomic (embed : String → Except String (List ℚ))
    (mkId : Nat → String) (now : Nat) (st : MindState) :
    ((∀ c ∈ st.daily_memories, ∃ v, embed c.content = Except.ok v) →
      ∃ mems : List Memory,
        (consolidate_memories embed mkId now st).1 = Except.ok mems.length ∧
        (consolidate_memories embed mkId now st).2.daily_memories = [] ∧
        (consolidate_memories embed mkId now st).2.long_term
          = st.long_term ++ mems ∧
        mems.map (fun m => m.content)
          = st.daily_memories.map (fun c => c.content)) ∧
    ((∃ c ∈ st.daily_memories, ∃ e, embed c.content = Except.error e) →
      ∃ e, (consolidate_memories embed mkId now st).1 = Except.error e ∧
        (consolidate_memories embed mkId now st).2 = st) := by
  constructor
  · intro hall
    obtain ⟨mems, hmems, hcontents⟩ :=
      consolidate_loop_ok embed mkId now st.daily_memories 0 hall
    refine ⟨mems, ?_, ?_, ?_, hcontents⟩ <;>
      simp [consolidate_memories, hmems]
  · intro hsome
    obtain ⟨e, he⟩ :=
      consolidate_loop_error embed mkId now st.daily_memories 0 hsome
    refine ⟨e, ?_, ?_⟩ <;> simp [consolidate_memories, he]

/-- C7 witness: with 3 buffered candidates and an embedding service that
throws on the 2nd, consolidation fails and the buffer (indeed the whole
mind state) is exactly its pre-consolidation state; with a working embedding
service all 3 are persisted and the buffer is cleared. -/
theorem consolidation_atomic_witness :
    (∃ e, (consolidate_memories failOnSecond demoMkId 7 threeCandidateState).1
        = Except.error e ∧
      (consolidate_memories failOnSecond demoMkId 7 threeCandidateState).2
        = threeCandidateState) ∧
    (consolidate_memories okEmbed demoMkId 7 threeCandidateState).2.daily_memories
      = [] ∧
    ((consolidate_memories okEmbed demoMkId 7 threeCandidateState).2.long_term.map
        (fun m => m.content)) = ["c1", "c2", "c3"] := by
  obtain ⟨hok, herr⟩ :=
    consolidation_atomic failOnSecond demoMkId 7 threeCandidateState
  obtain ⟨hok2, _⟩ :=
    consolidation_atomic okEmbed demoMkId 7 threeCandidateState
  refine ⟨herr ⟨⟨"c2", 5⟩, by decide, "embedding service failure", rfl⟩, ?_, ?_⟩
  · obtain ⟨mems, _, hempty, _, _⟩ := hok2 (fun c _ => ⟨[1, 2], rfl⟩)
    exact hempty
  · obtain ⟨mems, _, _, hstore, hcontents⟩ := hok2 (fun c _ => ⟨[1, 2], rfl⟩)
    rw [hstore]
    simpa [threeCandidateState, threeCandidates] using hcontents

end NPC
